import Mathlib

/-!
# Verification of the loan-calculator backend (`src/app.py`)

Shallow embedding over `ℚ` of the two pure components of the Flask app:

* `validate_cnic` / `validate_loan` — the loan-application validator;
* `calculate_emi` — the EMI (equated monthly installment) calculator and
  its amortization schedule;
* `validate` / `calculate` — the pure cores of the two JSON endpoints
  (after the field-coercion boundary).

Python's real arithmetic is modelled exactly over `ℚ`; Python's builtin
`round(x, 2)` (round half to even) is modelled by `round2`.  The regex
character class `\d` is modelled as an ASCII digit (`Char.isDigit`);
Python's `$` anchor also matches just before a single trailing newline,
which the embedding of `validate_cnic` reproduces.
-/

/-- Round a rational to the nearest integer, ties to even —
Python's builtin `round` with no digits. -/
def rhe (x : ℚ) : ℤ :=
  if x - (⌊x⌋ : ℚ) < 1/2 then ⌊x⌋
  else if (1/2 : ℚ) < x - (⌊x⌋ : ℚ) then ⌊x⌋ + 1
  else if ⌊x⌋ % 2 = 0 then ⌊x⌋ else ⌊x⌋ + 1

/-- Python's `round(q, 2)`: round to two decimal places, ties to even. -/
def round2 (q : ℚ) : ℚ := (rhe (q * 100) : ℚ) / 100

/-- One row of the amortization schedule (`app.py` lines 71–77). -/
structure ScheduleRow where
  month : ℕ
  emi : ℚ
  principal : ℚ
  interest : ℚ
  balance : ℚ
deriving Repr, DecidableEq

/-- The value returned by `calculate_emi` (`app.py` lines 79–85). -/
structure EmiResult where
  monthlyEMI : ℚ
  totalInterest : ℚ
  totalPayable : ℚ
  schedule : List ScheduleRow
  tenure : ℕ
deriving Repr, DecidableEq

/-- `monthly_rate = annual_rate / 12 / 100` (`app.py` line 50). -/
def monthlyRateOf (annual_rate : ℚ) : ℚ := annual_rate / 12 / 100

/-- `monthly_emi` as computed by `app.py` lines 52–57: linear branch when
the monthly rate is zero, otherwise the standard amortizing-loan formula. -/
def monthlyEmiOf (principal annual_rate : ℚ) (tenure_months : ℕ) : ℚ :=
  if monthlyRateOf annual_rate = 0 then principal / tenure_months
  else principal * monthlyRateOf annual_rate * (1 + monthlyRateOf annual_rate) ^ tenure_months /
    ((1 + monthlyRateOf annual_rate) ^ tenure_months - 1)

/-- The schedule loop of `app.py` lines 63–77: `fuel` months remain,
`month` is the 1-based index, `remaining_balance` the running balance. -/
def buildSchedule (monthly_rate monthly_emi : ℚ) : ℕ → ℕ → ℚ → List ScheduleRow
  | 0, _, _ => []
  | fuel + 1, month, remaining_balance =>
    { month := month
      emi := round2 monthly_emi
      principal := round2 (monthly_emi - remaining_balance * monthly_rate)
      interest := round2 (remaining_balance * monthly_rate)
      balance := round2 (max 0 (remaining_balance - (monthly_emi - remaining_balance * monthly_rate))) } ::
    buildSchedule monthly_rate monthly_emi fuel (month + 1)
      (remaining_balance - (monthly_emi - remaining_balance * monthly_rate))

/-- `calculate_emi` (`app.py` lines 48–85), with the `let`-bound
intermediates of the Python inlined: `total_payable = monthly_emi *
tenure_months`, `total_interest = total_payable - principal`, schedule over
months `1 .. min(tenure_months, 12)`. -/
def calculate_emi (principal annual_rate : ℚ) (tenure_months : ℕ) : EmiResult :=
  { monthlyEMI := round2 (monthlyEmiOf principal annual_rate tenure_months)
    totalInterest := round2 (monthlyEmiOf principal annual_rate tenure_months * tenure_months - principal)
    totalPayable := round2 (monthlyEmiOf principal annual_rate tenure_months * tenure_months)
    schedule := buildSchedule (monthlyRateOf annual_rate)
      (monthlyEmiOf principal annual_rate tenure_months) (min tenure_months 12) 1 principal
    tenure := tenure_months }

/-- A loan-application record as read by `validate_loan` via `data.get`:
every field may be absent.  The numeric coercions `int(...)` / `float(...)`
of the Python are the (out-of-scope) parsing boundary, so fields are typed. -/
structure LoanApplication where
  cnic : Option String
  loanType : Option String
  age : Option ℤ
  studentAge : Option ℤ
  landAcres : Option ℚ
deriving Repr, DecidableEq

/-- The core of the regex `^\d{5}-\d{7}-\d{1}$`: exactly
5 digits, `-`, 7 digits, `-`, 1 digit.  `\d` is modelled as an ASCII digit. -/
def matchesCnicPattern (cs : List Char) : Bool :=
  match cs with
  | [a1, a2, a3, a4, a5, h1, b1, b2, b3, b4, b5, b6, b7, h2, c1] =>
    a1.isDigit && a2.isDigit && a3.isDigit && a4.isDigit && a5.isDigit &&
    h1 == '-' &&
    b1.isDigit && b2.isDigit && b3.isDigit && b4.isDigit && b5.isDigit &&
    b6.isDigit && b7.isDigit &&
    h2 == '-' &&
    c1.isDigit
  | _ => false

/-- `validate_cnic` (`app.py` lines 11–14):
`bool(re.match(r'^\d{5}-\d{7}-\d{1}$', cnic))`.  Python's `$` anchor also
matches just before a single newline at the end of the string, so a string
consisting of the pattern followed by one trailing `'\n'` is accepted too. -/
def validate_cnic (cnic : String) : Bool :=
  matchesCnicPattern cnic.data ||
  (cnic.data.getLast? == some '\n' && matchesCnicPattern cnic.data.dropLast)

/-- The fixed CNIC error text appended by `validate_loan` (line 22). -/
def cnicErrorMsg : String := "Invalid CNIC format. Use: XXXXX-XXXXXXX-X"

/-- The CNIC part of `validate_loan` (lines 20–22): it reads only the
`cnic` field. -/
def cnicErrors (data : LoanApplication) : List String :=
  if validate_cnic (data.cnic.getD "") then [] else [cnicErrorMsg]

/-- The loan-type-specific part of `validate_loan` (lines 24–44): the
`if/elif` chain on `loan_type = data.get('loanType', 'Home')`, with
`age`/`studentAge` defaulting to `0` and `landAcres` to `0.0`. -/
def typeErrors (data : LoanApplication) : List String :=
  if data.loanType.getD "Home" ∈ (["Home", "Car"] : List String) then
    (if data.age.getD 0 < 22 ∨ 60 < data.age.getD 0 then
      ["Age must be 22-60 years for " ++ data.loanType.getD "Home" ++ " loans"] else [])
  else if data.loanType.getD "Home" = "Business" then
    (if data.age.getD 0 < 22 ∨ 70 < data.age.getD 0 then
      ["Age must be 22-70 years for Business loans"] else [])
  else if data.loanType.getD "Home" = "Education" then
    (if data.studentAge.getD 0 < 18 ∨ 50 < data.studentAge.getD 0 then
      ["Student age must be 18-50 years"] else [])
  else if data.loanType.getD "Home" ∈ (["Agriculture", "Dairy"] : List String) then
    (if data.landAcres.getD 0 ≤ 13 then
      [data.loanType.getD "Home" ++ " loans require more than 13 acres"] else [])
  else []

/-- `validate_loan` (`app.py` lines 16–46): the CNIC error (if any) is
appended first, then the single applicable type-specific error (if any). -/
def validate_loan (data : LoanApplication) : List String :=
  cnicErrors data ++ typeErrors data

/-- The JSON body returned by the `/api/validate` endpoint. -/
structure ValidationResult where
  isValid : Bool
  errors : List String
deriving Repr, DecidableEq

/-- The pure core of the `validate` route handler (`app.py` lines 91–103):
`isValid = (len(errors) == 0)`. -/
def validate (data : LoanApplication) : ValidationResult :=
  { isValid := (validate_loan data).length == 0
    errors := validate_loan data }

/-- Body of a `/api/calculate` response: either the full `EmiResult` or a
single `{error: ...}` object, never both. -/
inductive CalcBody where
  | result : EmiResult → CalcBody
  | error : String → CalcBody
deriving Repr, DecidableEq

/-- An HTTP response of the `/api/calculate` endpoint: status code plus body. -/
structure CalcResponse where
  status : ℕ
  body : CalcBody
deriving Repr, DecidableEq

/-- The pure core of the `calculate` route handler (`app.py` lines 105–128),
after the coercion boundary has produced the three typed inputs. -/
def calculate (loanAmount interestRate : ℚ) (loanTenure : ℤ) : CalcResponse :=
  if loanAmount ≤ 0 then
    { status := 400, body := CalcBody.error "Loan amount must be greater than 0" }
  else if interestRate < 0 ∨ 100 < interestRate then
    { status := 400, body := CalcBody.error "Interest rate must be between 0 and 100" }
  else if loanTenure ≤ 0 then
    { status := 400, body := CalcBody.error "Loan tenure must be greater than 0" }
  else
    { status := 200, body := CalcBody.result (calculate_emi loanAmount interestRate loanTenure.toNat) }

/-! ## Rounding lemmas -/

lemma rhe_bounds (x : ℚ) : ⌊x⌋ ≤ rhe x ∧ rhe x ≤ ⌊x⌋ + 1 := by
  unfold rhe; split_ifs <;> omega

lemma abs_rhe_sub_le (x : ℚ) : |(rhe x : ℚ) - x| ≤ 1/2 := by
  have h1 := Int.floor_le x
  have h2 := Int.lt_floor_add_one x
  unfold rhe
  split_ifs with a b c <;> rw [abs_le] <;> constructor <;> push_cast <;> linarith

lemma rhe_mono {x y : ℚ} (h : x ≤ y) : rhe x ≤ rhe y := by
  rcases lt_or_ge ⌊x⌋ ⌊y⌋ with hf | hf
  · have hx := rhe_bounds x
    have hy := rhe_bounds y
    omega
  · have hf' : ⌊x⌋ = ⌊y⌋ := le_antisymm (Int.floor_le_floor h) hf
    unfold rhe
    rw [hf']
    split_ifs <;> first | omega | linarith

lemma rhe_nonneg {x : ℚ} (h : 0 ≤ x) : 0 ≤ rhe x := by
  have h1 := (rhe_bounds x).1
  have h2 : 0 ≤ ⌊x⌋ := Int.floor_nonneg.2 h
  omega

lemma abs_round2_sub_le (q : ℚ) : |round2 q - q| ≤ 1/200 := by
  have h := abs_rhe_sub_le (q * 100)
  have e : round2 q - q = ((rhe (q * 100) : ℚ) - q * 100) / 100 := by
    unfold round2; ring
  rw [e, abs_div, abs_of_pos (by norm_num : (0:ℚ) < 100)]
  linarith

lemma round2_mono {q r : ℚ} (h : q ≤ r) : round2 q ≤ round2 r := by
  unfold round2
  have h1 := rhe_mono (by linarith : q * 100 ≤ r * 100)
  have h2 : ((rhe (q * 100) : ℚ)) ≤ (rhe (r * 100) : ℚ) := by exact_mod_cast h1
  linarith

lemma round2_nonneg {q : ℚ} (h : 0 ≤ q) : 0 ≤ round2 q := by
  unfold round2
  have := rhe_nonneg (by linarith : (0:ℚ) ≤ q * 100)
  positivity


lemma mem_validate_loan_iff (data : LoanApplication) (s : String) (hs : ¬ s = cnicErrorMsg) :
    s ∈ validate_loan data ↔ s ∈ typeErrors data := by
  unfold validate_loan cnicErrors
  split_ifs <;> simp [hs]

lemma cnicErrorMsg_not_mem_typeErrors (data : LoanApplication) :
    cnicErrorMsg ∉ typeErrors data := by
  unfold typeErrors
  split_ifs with h1 h2 h3 h4 h5 h6 h7 h8
  · simp only [List.mem_cons, List.mem_singleton, List.not_mem_nil, or_false] at h1
    rcases h1 with h | h <;> rw [h] <;> decide
  · simp
  · decide
  · simp
  · decide
  · simp
  · simp only [List.mem_cons, List.mem_singleton, List.not_mem_nil, or_false] at h7
    rcases h7 with h | h <;> rw [h] <;> decide
  · simp
  · simp

/-- C5: `validate_loan` applies exactly the type-specific rule of the
application's loan type — Home/Car get the [22,60] age rule, Business
[22,70], Education the [18,50] student-age rule, Agriculture/Dairy the
more-than-13-acres rule — with missing numeric fields defaulting to 0
before the comparison; a Home application with age 21 fails while age 30
passes, and an Agriculture application with 13 acres fails while 13.5
passes. -/
theorem validate_loan_type_rules (data : LoanApplication) :
    ((data.loanType.getD "Home" = "Home" ∨ data.loanType.getD "Home" = "Car") →
      (("Age must be 22-60 years for " ++ data.loanType.getD "Home" ++ " loans") ∈ validate_loan data ↔
        (data.age.getD 0 < 22 ∨ 60 < data.age.getD 0))) ∧
    (data.loanType.getD "Home" = "Business" →
      ("Age must be 22-70 years for Business loans" ∈ validate_loan data ↔
        (data.age.getD 0 < 22 ∨ 70 < data.age.getD 0))) ∧
    (data.loanType.getD "Home" = "Education" →
      ("Student age must be 18-50 years" ∈ validate_loan data ↔
        (data.studentAge.getD 0 < 18 ∨ 50 < data.studentAge.getD 0))) ∧
    ((data.loanType.getD "Home" = "Agriculture" ∨ data.loanType.getD "Home" = "Dairy") →
      ((data.loanType.getD "Home" ++ " loans require more than 13 acres") ∈ validate_loan data ↔
        data.landAcres.getD 0 ≤ 13)) ∧
    validate_loan ⟨some "12345-1234567-1", some "Home", some 21, none, none⟩ =
      ["Age must be 22-60 years for Home loans"] ∧
    validate_loan ⟨some "12345-1234567-1", some "Home", some 30, none, none⟩ = [] ∧
    validate_loan ⟨some "12345-1234567-1", some "Agriculture", none, none, some 13⟩ =
      ["Agriculture loans require more than 13 acres"] ∧
    validate_loan ⟨some "12345-1234567-1", some "Agriculture", none, none, some (27/2)⟩ = [] := by
  refine ⟨?_, ?_, ?_, ?_, by decide, by decide, ?_, ?_⟩
  · intro h
    rcases h with h | h <;>
      rw [mem_validate_loan_iff _ _ (by rw [h]; decide)] <;>
      unfold typeErrors <;> rw [h] <;>
      by_cases hc : data.age.getD 0 < 22 ∨ 60 < data.age.getD 0 <;>
      simp [hc]
  · intro h
    rw [mem_validate_loan_iff _ _ (by decide)]
    unfold typeErrors
    rw [h]
    by_cases hc : data.age.getD 0 < 22 ∨ 70 < data.age.getD 0 <;> simp [hc]
  · intro h
    rw [mem_validate_loan_iff _ _ (by decide)]
    unfold typeErrors
    rw [h]
    by_cases hc : data.studentAge.getD 0 < 18 ∨ 50 < data.studentAge.getD 0 <;> simp [hc]
  · intro h
    rcases h with h | h <;>
      rw [mem_validate_loan_iff _ _ (by rw [h]; decide)] <;>
      unfold typeErrors <;> rw [h] <;>
      by_cases hc : data.landAcres.getD 0 ≤ 13 <;>
      simp [hc]
  · have h2 : typeErrors ⟨some "12345-1234567-1", some "Agriculture", none, none, some 13⟩ =
        ["Agriculture loans require more than 13 acres"] := by
      simp only [typeErrors]; norm_num; decide
    simp [validate_loan, h2]
    decide
  · have h2 : typeErrors ⟨some "12345-1234567-1", some "Agriculture", none, none, some (27/2)⟩ = [] := by
      simp only [typeErrors]; norm_num; decide
    simp [validate_loan, h2]
    decide

/-- C6 counterexample: the string "12345-1234567-1\n" does not match the
fixed 15-character pattern, yet `validate_cnic` accepts it (Python's `$`
matches just before a trailing newline), so `validate_loan` appends no
CNIC error for it — refuting the claim that the error is appended exactly
when the fixed pattern fails. -/
theorem validate_cnic_newline_counterexample :
    validate_cnic "12345-1234567-1\n" = true ∧
    matchesCnicPattern "12345-1234567-1\n".data = false ∧
    cnicErrorMsg ∉ validate_loan ⟨some "12345-1234567-1\n", some "Home", some 30, none, none⟩ := by
  decide

/-- C6 amended: `validate_loan` appends the CNIC format error exactly when
the `cnic` field matches neither the fixed pattern DDDDD-DDDDDDD-D nor
that pattern followed by one trailing newline; "12345-1234567-1" passes
the format check and "1234-123456-1" fails it. -/
theorem validate_cnic_pattern_amended (data : LoanApplication) :
    (cnicErrorMsg ∈ validate_loan data ↔
      ¬ (matchesCnicPattern (data.cnic.getD "").data = true ∨
         ((data.cnic.getD "").data.getLast? = some '\n' ∧
          matchesCnicPattern (data.cnic.getD "").data.dropLast = true))) ∧
    validate_cnic "12345-1234567-1" = true ∧
    validate_cnic "1234-123456-1" = false := by
  refine ⟨?_, by decide, by decide⟩
  have hd := cnicErrorMsg_not_mem_typeErrors data
  unfold validate_loan cnicErrors
  split_ifs with h
  · simp only [List.nil_append]
    simp only [validate_cnic, Bool.or_eq_true, Bool.and_eq_true, beq_iff_eq] at h
    exact iff_of_false hd (not_not_intro h)
  · simp only [List.cons_append, List.nil_append]
    simp only [validate_cnic, Bool.or_eq_true, Bool.and_eq_true, beq_iff_eq] at h
    exact iff_of_true (List.mem_cons_self _ _) h

/-- C7: `validate_loan` is the concatenation of the CNIC check and the
type-specific check, each computed independently of the other's fields
(no short-circuit), and the reported `isValid` is true exactly when the
accumulated error list is empty. -/
theorem validate_accumulates (data d1 d2 : LoanApplication) :
    validate_loan data = cnicErrors data ++ typeErrors data ∧
    (d1.cnic = d2.cnic → cnicErrors d1 = cnicErrors d2) ∧
    (d1.loanType = d2.loanType → d1.age = d2.age → d1.studentAge = d2.studentAge →
      d1.landAcres = d2.landAcres → typeErrors d1 = typeErrors d2) ∧
    ((validate data).isValid = true ↔ (validate data).errors = []) := by
  refine ⟨rfl, ?_, ?_, ?_⟩
  · intro h
    unfold cnicErrors
    rw [h]
  · intro h1 h2 h3 h4
    unfold typeErrors
    rw [h1, h2, h3, h4]
  · unfold validate
    simp [List.length_eq_zero]

/-- C8: an absent `loanType` is treated as "Home", while a present but
unrecognized `loanType` triggers no type-specific check, so only the CNIC
check can contribute an error. -/
theorem validate_loan_loanType_default (data : LoanApplication) (t : String) :
    (data.loanType = none →
      validate_loan data = validate_loan { data with loanType := some "Home" }) ∧
    (data.loanType = some t →
      t ∉ (["Home", "Car", "Business", "Education", "Agriculture", "Dairy"] : List String) →
      validate_loan data = cnicErrors data) := by
  constructor
  · intro h
    simp only [validate_loan, cnicErrors, typeErrors, h, Option.getD_none, Option.getD_some]
  · intro h hn
    simp only [List.mem_cons, List.mem_singleton, List.not_mem_nil, or_false, not_or] at hn
    obtain ⟨n1, n2, n3, n4, n5, n6⟩ := hn
    have ht : typeErrors data = [] := by
      unfold typeErrors
      rw [h]
      simp [n1, n2, n3, n4, n5, n6]
    unfold validate_loan
    rw [ht, List.append_nil]

/-- C10: the error list of `validate_loan` has at most two entries — at
most one CNIC error and at most one type-specific error — and when the
CNIC error is present it is the first element. -/
theorem validate_loan_error_count (data : LoanApplication) :
    (validate_loan data).length ≤ 2 ∧
    (cnicErrors data).length ≤ 1 ∧
    (typeErrors data).length ≤ 1 ∧
    List.count cnicErrorMsg (validate_loan data) ≤ 1 ∧
    (cnicErrorMsg ∈ validate_loan data → (validate_loan data).head? = some cnicErrorMsg) := by
  have hc : (cnicErrors data).length ≤ 1 := by
    unfold cnicErrors; split_ifs <;> simp
  have ht : (typeErrors data).length ≤ 1 := by
    unfold typeErrors; split_ifs <;> simp
  have hd := cnicErrorMsg_not_mem_typeErrors data
  refine ⟨?_, hc, ht, ?_, ?_⟩
  · unfold validate_loan
    rw [List.length_append]
    omega
  · unfold validate_loan
    rw [List.count_append]
    have h2 : List.count cnicErrorMsg (typeErrors data) = 0 := List.count_eq_zero.2 hd
    have h1 : List.count cnicErrorMsg (cnicErrors data) ≤ 1 := by
      unfold cnicErrors; split_ifs <;> simp
    omega
  · intro hmem
    unfold validate_loan at hmem ⊢
    rcases List.mem_append.1 hmem with h | h
    · unfold cnicErrors at h ⊢
      split_ifs at h ⊢ with hv
      · simp at h
      · simp
    · exact absurd h hd

/-! ## EMI lemmas -/

lemma row_sum_close (e ip : ℚ) : |round2 (round2 (e - ip) + round2 ip) - round2 e| ≤ 2/100 := by
  have h1 := abs_round2_sub_le (e - ip)
  have h2 := abs_round2_sub_le ip
  have h3 := abs_round2_sub_le e
  have h4 := abs_round2_sub_le (round2 (e - ip) + round2 ip)
  rw [abs_le] at *
  constructor <;> linarith

lemma buildSchedule_length (mr e : ℚ) (k : ℕ) : ∀ (m : ℕ) (rb : ℚ),
    (buildSchedule mr e k m rb).length = k := by
  induction k with
  | zero => intro m rb; rfl
  | succ k ih => intro m rb; simp [buildSchedule, ih]

lemma buildSchedule_row_shape (mr e : ℚ) (k : ℕ) : ∀ (m : ℕ) (rb : ℚ),
    ∀ row ∈ buildSchedule mr e k m rb, ∃ ip b,
      row.emi = round2 e ∧ row.interest = round2 ip ∧
      row.principal = round2 (e - ip) ∧ row.balance = round2 (max 0 b) := by
  induction k with
  | zero => intro m rb row h; simp [buildSchedule] at h
  | succ k ih =>
    intro m rb row h
    rw [buildSchedule] at h
    rcases List.mem_cons.1 h with h | h
    · exact ⟨rb * mr, rb - (e - rb * mr), by rw [h], by rw [h], by rw [h], by rw [h]⟩
    · exact ih (m + 1) (rb - (e - rb * mr)) row h

lemma invariant_step (mr e rb : ℚ) (hmr : 0 ≤ mr) (hinv : rb * mr ≤ e) :
    (rb - (e - rb * mr)) * mr ≤ e := by
  nlinarith [mul_le_mul_of_nonneg_right hinv hmr]

lemma buildSchedule_balance_chain (mr e : ℚ) (hmr : 0 ≤ mr) (k : ℕ) : ∀ (m : ℕ) (rb : ℚ),
    rb * mr ≤ e →
    List.Chain' (fun a b => b ≤ a) ((buildSchedule mr e k m rb).map (fun row => row.balance)) := by
  induction k with
  | zero => intro m rb _; simp [buildSchedule]
  | succ k ih =>
    intro m rb hinv
    rw [buildSchedule, List.map_cons, List.chain'_cons']
    refine ⟨?_, ih (m + 1) (rb - (e - rb * mr)) (invariant_step mr e rb hmr hinv)⟩
    intro y hy
    cases k with
    | zero => simp [buildSchedule] at hy
    | succ k' =>
      rw [buildSchedule, List.map_cons, List.head?_cons, Option.mem_some_iff] at hy
      subst hy
      have hinv2 := invariant_step mr e rb hmr hinv
      have hdec : rb - (e - rb * mr) - (e - (rb - (e - rb * mr)) * mr) ≤ rb - (e - rb * mr) := by
        linarith
      exact round2_mono (max_le_max le_rfl hdec)

lemma buildSchedule_balance_nonneg (mr e : ℚ) (k : ℕ) (m : ℕ) (rb : ℚ) :
    ∀ row ∈ buildSchedule mr e k m rb, 0 ≤ row.balance := by
  intro row h
  obtain ⟨ip, b, _, _, _, hb⟩ := buildSchedule_row_shape mr e k m rb row h
  rw [hb]
  exact round2_nonneg (le_max_left 0 b)

lemma monthlyRateOf_nonneg {r : ℚ} (hr : 0 ≤ r) : 0 ≤ monthlyRateOf r := by
  unfold monthlyRateOf; positivity

lemma initial_invariant (P r : ℚ) (n : ℕ) (hP : 0 < P) (hr : 0 ≤ r) (hn : 0 < n) :
    P * monthlyRateOf r ≤ monthlyEmiOf P r n := by
  have hmr := monthlyRateOf_nonneg hr
  unfold monthlyEmiOf
  split_ifs with h
  · rw [h, mul_zero]
    positivity
  · have hmr' : 0 < monthlyRateOf r := lt_of_le_of_ne hmr (Ne.symm h)
    have hK : 1 < (1 + monthlyRateOf r) ^ n := one_lt_pow₀ (by linarith) hn.ne'
    rw [le_div_iff₀ (by linarith : (0:ℚ) < (1 + monthlyRateOf r) ^ n - 1)]
    nlinarith [mul_pos hP hmr']

/-! ## Main EMI theorems -/

/-- C1 amended: for principal 100000, annual rate 10, tenure 12,
`calculate_emi` returns monthlyEMI = 8791.59, totalPayable = 105499.06 and
totalInterest = 5499.06: the totals are rounded from the unrounded
EMI × tenure (105499.0647), not from the rounded monthly EMI. -/
theorem calculate_emi_example :
    (calculate_emi 100000 10 12).monthlyEMI = 879159/100 ∧
    (calculate_emi 100000 10 12).totalPayable = 5274953/50 ∧
    (calculate_emi 100000 10 12).totalInterest = 274953/50 := by
  refine ⟨?_, ?_, ?_⟩ <;>
    simp only [calculate_emi] <;>
    norm_num [monthlyEmiOf, monthlyRateOf, round2, rhe]

/-- C1 counterexample: at principal 100000, rate 10, tenure 12 the claimed
triple (8791.59, 105499.08, 5499.08) is refuted — the code returns
totalPayable 105499.06, not 105499.08 (105499.08 is the rounded EMI
8791.59 times 12, which the code does not compute). -/
theorem calculate_emi_example_spec_counterexample :
    ¬ ((calculate_emi 100000 10 12).monthlyEMI = 879159/100 ∧
       (calculate_emi 100000 10 12).totalPayable = 10549908/100 ∧
       (calculate_emi 100000 10 12).totalInterest = 549908/100) := by
  intro h
  have h2 : (calculate_emi 100000 10 12).totalPayable = 5274953/50 := by
    simp only [calculate_emi]
    norm_num [monthlyEmiOf, monthlyRateOf, round2, rhe]
  rw [h2] at h
  norm_num at h

/-- C2 counterexample: at principal 100000, rate 10, tenure 12 the
returned rounded values satisfy |totalPayable − monthlyEMI·12| = 0.02,
which exceeds the claimed 0.01 tolerance. -/
theorem calculate_emi_totals_counterexample :
    ¬ (|(calculate_emi 100000 10 12).totalPayable -
        (calculate_emi 100000 10 12).monthlyEMI * 12| ≤ 1/100) := by
  have h1 : (calculate_emi 100000 10 12).monthlyEMI = 879159/100 := by
    simp only [calculate_emi]
    norm_num [monthlyEmiOf, monthlyRateOf, round2, rhe]
  have h2 : (calculate_emi 100000 10 12).totalPayable = 5274953/50 := by
    simp only [calculate_emi]
    norm_num [monthlyEmiOf, monthlyRateOf, round2, rhe]
  rw [h1, h2]
  rw [show (5274953/50 : ℚ) - 879159/100 * 12 = -(1/50) from by norm_num, abs_neg,
    abs_of_pos (by norm_num : (0:ℚ) < 1/50)]
  norm_num

/-- C2 amended: for every principal > 0, rate in [0,100], tenure > 0, the
returned rounded values satisfy |totalPayable − monthlyEMI·tenure| ≤
0.005·(tenure+1), and |totalInterest − (totalPayable − principal)| ≤ 0.01. -/
theorem calculate_emi_totals_consistent (P r : ℚ) (n : ℕ)
    (hP : 0 < P) (hr0 : 0 ≤ r) (hr1 : r ≤ 100) (hn : 0 < n) :
    |(calculate_emi P r n).totalPayable - (calculate_emi P r n).monthlyEMI * n| ≤ (n + 1) / 200 ∧
    |(calculate_emi P r n).totalInterest - ((calculate_emi P r n).totalPayable - P)| ≤ 1/100 := by
  simp only [calculate_emi]
  constructor
  · have h1 := abs_round2_sub_le (monthlyEmiOf P r n * n)
    have h2 := abs_round2_sub_le (monthlyEmiOf P r n)
    have h3 : |round2 (monthlyEmiOf P r n) * n - monthlyEmiOf P r n * n| ≤ (n : ℚ) / 200 := by
      rw [← sub_mul, abs_mul, abs_of_nonneg (by positivity : (0:ℚ) ≤ (n:ℚ))]
      have : |round2 (monthlyEmiOf P r n) - monthlyEmiOf P r n| * n ≤ (1/200) * n :=
        mul_le_mul_of_nonneg_right h2 (by positivity)
      linarith
    rw [abs_le] at h1 h3 ⊢
    constructor <;> push_cast <;> linarith [h1.1, h1.2, h3.1, h3.2]
  · have h1 := abs_round2_sub_le (monthlyEmiOf P r n * n - P)
    have h2 := abs_round2_sub_le (monthlyEmiOf P r n * n)
    rw [abs_le] at h1 h2 ⊢
    constructor <;> linarith

/-- C3: for every principal > 0, rate in [0,100], tenure > 0: every
schedule row satisfies |round2(principal + interest) − emi| ≤ 0.02, the
balance column is non-increasing and never negative, the schedule has
exactly min(tenure, 12) rows, and for tenure > 12 the truncation to 12
rows leaves monthlyEMI, totalPayable, totalInterest and tenure computed
from the full tenure. -/
theorem calculate_emi_schedule_invariants (P r : ℚ) (n : ℕ)
    (hP : 0 < P) (hr0 : 0 ≤ r) (hr1 : r ≤ 100) (hn : 0 < n) :
    (∀ row ∈ (calculate_emi P r n).schedule,
      |round2 (row.principal + row.interest) - row.emi| ≤ 2/100) ∧
    List.Chain' (fun a b => b ≤ a) ((calculate_emi P r n).schedule.map (fun row => row.balance)) ∧
    (∀ row ∈ (calculate_emi P r n).schedule, 0 ≤ row.balance) ∧
    (calculate_emi P r n).schedule.length = min n 12 ∧
    (12 < n →
      (calculate_emi P r n).schedule.length = 12 ∧
      (calculate_emi P r n).monthlyEMI = round2 (monthlyEmiOf P r n) ∧
      (calculate_emi P r n).totalPayable = round2 (monthlyEmiOf P r n * n) ∧
      (calculate_emi P r n).totalInterest = round2 (monthlyEmiOf P r n * n - P) ∧
      (calculate_emi P r n).tenure = n) := by
  simp only [calculate_emi]
  refine ⟨?_, ?_, ?_, ?_, ?_⟩
  · intro row hrow
    obtain ⟨ip, b, he, hi, hp, _⟩ :=
      buildSchedule_row_shape (monthlyRateOf r) (monthlyEmiOf P r n) (min n 12) 1 P row hrow
    rw [he, hi, hp]
    exact row_sum_close (monthlyEmiOf P r n) ip
  · exact buildSchedule_balance_chain (monthlyRateOf r) (monthlyEmiOf P r n)
      (monthlyRateOf_nonneg hr0) (min n 12) 1 P (initial_invariant P r n hP hr0 hn)
  · exact buildSchedule_balance_nonneg (monthlyRateOf r) (monthlyEmiOf P r n) (min n 12) 1 P
  · exact buildSchedule_length _ _ _ 1 P
  · intro h
    refine ⟨?_, trivial, trivial, trivial, trivial⟩
    rw [buildSchedule_length]
    omega

/-- C4: for every principal > 0, rate in [0,100], tenure > 0: when the
monthly rate is zero `calculate_emi` takes the linear branch and returns
monthlyEMI = round2(principal / tenure), within 0.005 of principal /
tenure; when the monthly rate is positive the compound-formula denominator
(1 + monthlyRate)^tenure − 1 is nonzero. -/
theorem calculate_emi_rate_zero_safe (P r : ℚ) (n : ℕ)
    (hP : 0 < P) (hr0 : 0 ≤ r) (hr1 : r ≤ 100) (hn : 0 < n) :
    (monthlyRateOf r = 0 →
      monthlyEmiOf P r n = P / n ∧
      (calculate_emi P r n).monthlyEMI = round2 (P / n) ∧
      |(calculate_emi P r n).monthlyEMI - P / n| ≤ 1/200) ∧
    (0 < monthlyRateOf r → (1 + monthlyRateOf r) ^ n - 1 ≠ 0) := by
  constructor
  · intro h
    have he : monthlyEmiOf P r n = P / n := by
      unfold monthlyEmiOf
      rw [if_pos h]
    refine ⟨he, ?_, ?_⟩
    · simp only [calculate_emi, he]
    · simp only [calculate_emi, he]
      exact abs_round2_sub_le (P / n)
  · intro h
    have hK : 1 < (1 + monthlyRateOf r) ^ n := one_lt_pow₀ (by linarith) hn.ne'
    exact ne_of_gt (by linarith)

/-- C9: `/api/calculate` returns 400 with the amount error when
loanAmount ≤ 0; otherwise 400 with the rate error when the rate is outside
[0,100]; otherwise 400 with the tenure error when tenure ≤ 0; otherwise
200 with the full `EmiResult` — and every response is either a full result
or a single error object, never both. -/
theorem calculate_route_spec (P r : ℚ) (t : ℤ) :
    (P ≤ 0 → calculate P r t =
      ⟨400, CalcBody.error "Loan amount must be greater than 0"⟩) ∧
    (0 < P → (r < 0 ∨ 100 < r) → calculate P r t =
      ⟨400, CalcBody.error "Interest rate must be between 0 and 100"⟩) ∧
    (0 < P → 0 ≤ r → r ≤ 100 → t ≤ 0 → calculate P r t =
      ⟨400, CalcBody.error "Loan tenure must be greater than 0"⟩) ∧
    (0 < P → 0 ≤ r → r ≤ 100 → 0 < t → calculate P r t =
      ⟨200, CalcBody.result (calculate_emi P r t.toNat)⟩) ∧
    (((calculate P r t).status = 200 ∧ ∃ res, (calculate P r t).body = CalcBody.result res) ∨
     ((calculate P r t).status = 400 ∧ ∃ msg, (calculate P r t).body = CalcBody.error msg)) := by
  refine ⟨?_, ?_, ?_, ?_, ?_⟩
  · intro h
    rw [calculate, if_pos h]
  · intro h1 h2
    rw [calculate, if_neg (not_le.2 h1), if_pos h2]
  · intro h1 h2 h3 h4
    rw [calculate, if_neg (not_le.2 h1), if_neg (by push_neg; exact ⟨h2, h3⟩), if_pos h4]
  · intro h1 h2 h3 h4
    rw [calculate, if_neg (not_le.2 h1), if_neg (by push_neg; exact ⟨h2, h3⟩),
      if_neg (not_le.2 h4)]
  · unfold calculate
    split_ifs <;> simp

/-! ## Witnesses -/

/-- C2 witness: the amended totals bound instantiated at principal 100000,
rate 10, tenure 12. -/
theorem calculate_emi_totals_consistent_witness :
    |(calculate_emi 100000 10 12).totalInterest -
      ((calculate_emi 100000 10 12).totalPayable - 100000)| ≤ 1/100 :=
  (calculate_emi_totals_consistent 100000 10 12 (by norm_num) (by norm_num)
    (by norm_num) (by norm_num)).2

/-- C3 witness: the schedule-length invariant instantiated at principal
100000, rate 10, tenure 12. -/
theorem calculate_emi_schedule_invariants_witness :
    (calculate_emi 100000 10 12).schedule.length = min 12 12 :=
  (calculate_emi_schedule_invariants 100000 10 12 (by norm_num) (by norm_num)
    (by norm_num) (by norm_num)).2.2.2.1

/-- C4 witness: the zero-rate linear branch at (100, 0, 4) and the nonzero
denominator at rate 10, tenure 12. -/
theorem calculate_emi_rate_zero_safe_witness :
    monthlyEmiOf 100 0 4 = 100 / 4 ∧ (1 + monthlyRateOf 10) ^ 12 - 1 ≠ 0 :=
  ⟨((calculate_emi_rate_zero_safe 100 0 4 (by norm_num) le_rfl (by norm_num)
      (by norm_num)).1 (by norm_num [monthlyRateOf])).1,
   (calculate_emi_rate_zero_safe 100000 10 12 (by norm_num) (by norm_num) (by norm_num)
      (by norm_num)).2 (by norm_num [monthlyRateOf])⟩

/-- C5 witness: the Home age rule instantiated at a concrete application
with age 21. -/
theorem validate_loan_type_rules_witness :
    ("Age must be 22-60 years for " ++ "Home" ++ " loans") ∈
      validate_loan ⟨some "12345-1234567-1", some "Home", some 21, none, none⟩ :=
  ((validate_loan_type_rules ⟨some "12345-1234567-1", some "Home", some 21, none, none⟩).1
    (Or.inl rfl)).mpr (Or.inl (by decide))

/-- C6 witness: the amended CNIC characterization instantiated at a
concrete application. -/
theorem validate_cnic_pattern_amended_witness :
    validate_cnic "12345-1234567-1" = true :=
  (validate_cnic_pattern_amended ⟨none, none, none, none, none⟩).2.1

/-- C7 witness: the CNIC check is unchanged under changing the loan-type
fields of a concrete application. -/
theorem validate_accumulates_witness :
    cnicErrors ⟨some "12345-1234567-1", some "Home", some 30, none, none⟩ =
      cnicErrors ⟨some "12345-1234567-1", some "Business", some 45, none, none⟩ :=
  (validate_accumulates ⟨some "12345-1234567-1", some "Home", some 30, none, none⟩
    ⟨some "12345-1234567-1", some "Home", some 30, none, none⟩
    ⟨some "12345-1234567-1", some "Business", some 45, none, none⟩).2.1 rfl

/-- C8 witness: a concrete application with the unrecognized loan type
"Boat" gets no type-specific error. -/
theorem validate_loan_loanType_default_witness :
    validate_loan ⟨some "12345-1234567-1", some "Boat", some 5, none, none⟩ =
      cnicErrors ⟨some "12345-1234567-1", some "Boat", some 5, none, none⟩ :=
  (validate_loan_loanType_default ⟨some "12345-1234567-1", some "Boat", some 5, none, none⟩
    "Boat").2 rfl (by decide)

/-- C9 witness: `/api/calculate` at loanAmount 0 returns the 400
amount-must-exceed-zero response. -/
theorem calculate_route_spec_witness :
    calculate 0 10 12 = ⟨400, CalcBody.error "Loan amount must be greater than 0"⟩ :=
  (calculate_route_spec 0 10 12).1 le_rfl

/-- C10 witness: a concrete application with a malformed CNIC has the
CNIC error as the first element of its error list. -/
theorem validate_loan_error_count_witness :
    (validate_loan ⟨some "bad-cnic", some "Home", some 10, none, none⟩).head? =
      some cnicErrorMsg :=
  (validate_loan_error_count ⟨some "bad-cnic", some "Home", some 10, none, none⟩).2.2.2.2
    (by decide)
